import Mathlib

/-!
Shallow embedding of `src/ext/event/backend/epoll.c` (the epoll backend of
the io-event extension), together with theorems settling the specification
claims about it.

Modelling conventions:

* Ruby `VALUE`s are modelled by the inductive type `RValue`: `nil` is `Qnil`,
  `int` is a `FIXNUM`, `float` is a Ruby `Float` (a C `double`, modelled as an
  exact rational; every concrete float used in a theorem below is exactly
  representable in binary64 and all arithmetic on it is exact there), and
  `obj` is any other heap object (a fiber, an IO object, the event loop, ...).
* Ruby exceptions raised from C (`rb_sys_fail`, `rb_raise`) are modelled by
  returning `Except RubyError _`; a raised exception aborts the C function at
  the raise site, so no code after it runs.
* Calls into the operating system (`epoll_create`, `epoll_ctl`, `dup`,
  `epoll_wait`) are modelled by explicit oracle parameters carrying the
  outcome the OS produced for each call site; the functions are then total in
  the oracle.  Observable side effects (`epoll_ctl` registrations, `dup`,
  `close`, `rb_update_max_fd`, fiber `transfer` calls) are recorded in an
  explicit run record, in program order.
* C `int` is 32 bits; C `long` is 64 bits (LP64).  The implicit conversion of
  an out-of-range `long` to `int` is modelled as two's-complement wrap-around
  (`wrap32`), the de-facto semantics on the targeted compilers.  The C cast of
  a `double` to `int` truncates toward zero (`truncToward0`).
-/

/-- A Ruby `VALUE`, as far as the C code inspects it. -/
inductive RValue where
  | nil : RValue
  | int : Int → RValue
  | float : ℚ → RValue
  | obj : Nat → RValue
deriving DecidableEq

/-- A Ruby exception raised from the C layer: `rb_sys_fail(op)` carries the
name of the failing operation, `rb_raise(rb_eRuntimeError, msg)` carries the
message. -/
inductive RubyError where
  | sysFail : String → RubyError
  | runtimeError : String → RubyError
deriving DecidableEq

/-- `struct Event_Backend_EPoll` (epoll.c lines 34-37): the owning loop and
the epoll queue descriptor. -/
structure Event_Backend_EPoll where
  loop : RValue
  descriptor : Int
deriving DecidableEq

/-- `static const int READABLE = 1` (epoll.c line 30). -/
def READABLE : Int := 1

/-- `static const int PRIORITY = 2` (epoll.c line 30). -/
def PRIORITY : Int := 2

/-- `static const int WRITABLE = 4` (epoll.c line 30). -/
def WRITABLE : Int := 4

/-- `static const unsigned EPOLL_MAX_EVENTS = 1024` (epoll.c line 32). -/
def EPOLL_MAX_EVENTS : Nat := 1024

/-- Linux `EPOLLIN` flag value (from `sys/epoll.h`). -/
def EPOLLIN : Nat := 1

/-- Linux `EPOLLPRI` flag value. -/
def EPOLLPRI : Nat := 2

/-- Linux `EPOLLOUT` flag value. -/
def EPOLLOUT : Nat := 4

/-- Linux `EPOLLRDHUP` flag value (0x2000). -/
def EPOLLRDHUP : Nat := 8192

/-- Linux `EPOLLONESHOT` flag value (1 <<< 30). -/
def EPOLLONESHOT : Nat := 1073741824

/-- `struct epoll_event` as the backend uses it: the `events` flag word
(`uint32_t`) and the opaque payload `data.ptr`, which the backend always sets
to the waiting fiber. -/
structure EpollEventStruct where
  events : Nat
  ptr : RValue
deriving DecidableEq

/-- Effects of `Event_Backend_EPoll_Type_free` (epoll.c lines 45-54): which
file descriptors were passed to `close`, and which fibers were resumed (the
free function resumes none; the field exists so the theorem can state that). -/
structure FreeEffects where
  closed : List Int
  resumed : List RValue
deriving DecidableEq

/-- `Event_Backend_EPoll_Type_free` (epoll.c lines 45-54): closes the epoll
descriptor if it is non-negative, then frees the struct.  It has no failure
path and calls no fiber transfer. -/
def Event_Backend_EPoll_Type_free (data : Event_Backend_EPoll) : FreeEffects :=
  if data.descriptor ≥ 0 then { closed := [data.descriptor], resumed := [] }
  else { closed := [], resumed := [] }

/-- `Event_Backend_EPoll_allocate` (epoll.c lines 72-80): the fresh backend
state, with `loop = Qnil` and `descriptor = -1`. -/
def Event_Backend_EPoll_allocate : Event_Backend_EPoll :=
  { loop := RValue.nil, descriptor := -1 }

/-- The backend initializer (epoll.c lines 82-90).  `epollCreate` is
the value returned by `epoll_create(1)` for this call.  The C function stores
the loop and the raw `epoll_create` result and returns `self`; it contains no
error check, so the model can only ever produce `.ok`. -/
def Event_Backend_EPoll_initialize (_self : Event_Backend_EPoll) (loop : RValue)
    (epollCreate : Int) : Except RubyError Event_Backend_EPoll :=
  Except.ok { loop := loop, descriptor := epollCreate }

/-- Outcome of one `epoll_ctl(..., EPOLL_CTL_ADD, ...)` call: success (0),
or failure (-1) with `errno = EEXIST`, or failure with any other `errno`. -/
inductive CtlResult where
  | ok : CtlResult
  | eexist : CtlResult
  | fail : CtlResult
deriving DecidableEq

/-- OS oracle for one `Event_Backend_EPoll_io_wait` call: the outcome of the
first `epoll_ctl` add (line 121), the return value of `dup(descriptor)`
(line 125, a fresh descriptor or -1), and the outcome of the retried
`epoll_ctl` add (line 132). -/
structure IOWaitOS where
  add1 : CtlResult
  dupResult : Int
  add2 : CtlResult
deriving DecidableEq

/-- Observable run of one `Event_Backend_EPoll_io_wait` call:
`ctlAdds` lists the `epoll_ctl` ADD registrations attempted, in order, as
(file descriptor, event struct); `dupCalledOn` records the argument of the
`dup` call if the recovery path ran; `updatedMaxFd` records the argument of
`rb_update_max_fd`; `closed` lists the descriptors passed to `close`;
`transferredTo` lists the values whose `transfer` method was invoked, in
order; `result` is the Ruby-level outcome; `final` is the backend state when
the call ends. -/
structure IOWaitRun where
  ctlAdds : List (Int × EpollEventStruct)
  dupCalledOn : Option Int
  updatedMaxFd : Option Int
  closed : List Int
  transferredTo : List RValue
  result : Except RubyError RValue
  final : Event_Backend_EPoll

/-- The `event.events` flag word built by epoll.c lines 96-116: start from 0,
OR in `EPOLLIN`/`EPOLLPRI`/`EPOLLOUT` according to the `READABLE`/`PRIORITY`/
`WRITABLE` bits of the mask, then unconditionally OR in `EPOLLRDHUP` and
`EPOLLONESHOT`. -/
def ioWaitFlags (mask : Int) : Nat :=
  let e : Nat := 0
  let e := if Int.land mask READABLE ≠ 0 then e ||| EPOLLIN else e
  let e := if Int.land mask PRIORITY ≠ 0 then e ||| EPOLLPRI else e
  let e := if Int.land mask WRITABLE ≠ 0 then e ||| EPOLLOUT else e
  let e := e ||| EPOLLRDHUP
  let e := e ||| EPOLLONESHOT
  e

/-- `Event_Backend_EPoll_io_wait` (epoll.c lines 92-146).  `descriptor` is the
resolved `NUM2INT(rb_funcall(io, id_fileno, 0))`; `mask` is `NUM2INT(events)`;
`os` carries the OS outcomes.  Control flow of the source: first
`epoll_ctl` add (line 121); on `EEXIST`, `duplicate = descriptor =
dup(descriptor)` and `rb_update_max_fd(duplicate)` (lines 125-127), then
`rb_sys_fail("dup")` if the dup failed (lines 129-130), else retry the add
(line 132); any remaining failure raises `rb_sys_fail("epoll_ctl")`
(lines 135-137); then `transfer` to the loop (line 139); finally
`close(duplicate)` only if `duplicate >= 0` (lines 141-143); return `Qnil`.
A raise aborts the function, so the trailing `close` does not run on the
raising paths. -/
def Event_Backend_EPoll_io_wait (data : Event_Backend_EPoll) (fiber : RValue)
    (descriptor : Int) (mask : Int) (os : IOWaitOS) : IOWaitRun :=
  let event : EpollEventStruct := { events := ioWaitFlags mask, ptr := fiber }
  match os.add1 with
  | CtlResult.ok =>
      { ctlAdds := [(descriptor, event)], dupCalledOn := none, updatedMaxFd := none,
        closed := [], transferredTo := [data.loop],
        result := Except.ok RValue.nil, final := data }
  | CtlResult.fail =>
      { ctlAdds := [(descriptor, event)], dupCalledOn := none, updatedMaxFd := none,
        closed := [], transferredTo := [],
        result := Except.error (RubyError.sysFail "epoll_ctl"), final := data }
  | CtlResult.eexist =>
      let duplicate := os.dupResult
      if duplicate = -1 then
        { ctlAdds := [(descriptor, event)], dupCalledOn := some descriptor,
          updatedMaxFd := some duplicate, closed := [], transferredTo := [],
          result := Except.error (RubyError.sysFail "dup"), final := data }
      else
        match os.add2 with
        | CtlResult.ok =>
            { ctlAdds := [(descriptor, event), (duplicate, event)],
              dupCalledOn := some descriptor, updatedMaxFd := some duplicate,
              closed := [duplicate], transferredTo := [data.loop],
              result := Except.ok RValue.nil, final := data }
        | CtlResult.eexist =>
            { ctlAdds := [(descriptor, event), (duplicate, event)],
              dupCalledOn := some descriptor, updatedMaxFd := some duplicate,
              closed := [], transferredTo := [],
              result := Except.error (RubyError.sysFail "epoll_ctl"), final := data }
        | CtlResult.fail =>
            { ctlAdds := [(descriptor, event), (duplicate, event)],
              dupCalledOn := some descriptor, updatedMaxFd := some duplicate,
              closed := [], transferredTo := [],
              result := Except.error (RubyError.sysFail "epoll_ctl"), final := data }

/-- Two's-complement wrap of an integer into the range of a 32-bit C `int`,
modelling the implementation-defined conversion of a wider value to `int`. -/
def wrap32 (x : Int) : Int := (x + 2 ^ 31) % 2 ^ 32 - 2 ^ 31

/-- C conversion of a real value to an integer type: truncation toward zero. -/
def truncToward0 (q : ℚ) : Int := if 0 ≤ q then ⌊q⌋ else ⌈q⌉

/-- `make_timeout` (epoll.c lines 148-165).  `Qnil` maps to -1; a `FIXNUM`
maps to `NUM2LONG(duration) * 1000L` (exact in 64-bit `long` for fixnums of
moderate size) implicitly converted to the `int` return type, i.e. wrapped;
a `Float` maps to `value * 1000` (exact rational model) truncated toward zero
by the `double` to `int` conversion; anything else raises
`rb_raise(rb_eRuntimeError, "unable to convert timeout")`. -/
def make_timeout (duration : RValue) : Except RubyError Int :=
  match duration with
  | RValue.nil => Except.ok (-1)
  | RValue.int n => Except.ok (wrap32 (n * 1000))
  | RValue.float q => Except.ok (wrap32 (truncToward0 (q * 1000)))
  | RValue.obj _ => Except.error (RubyError.runtimeError "unable to convert timeout")

/-- Outcome of one `epoll_wait` call: -1, or a count of ready events together
with the filled entries (the count returned by the kernel is the length of
the list). -/
inductive WaitResult where
  | fail : WaitResult
  | ready : List EpollEventStruct → WaitResult
deriving DecidableEq

/-- OS oracle for `Event_Backend_EPoll_select`: the outcome of `epoll_wait`
as a function of the `maxevents` capacity and the timeout passed to it. -/
structure SelectOS where
  epollWait : Nat → Int → WaitResult

/-- Observable run of one `Event_Backend_EPoll_select` call: `waitCall`
records the (maxevents, timeout) arguments of the `epoll_wait` call if it was
reached; `transferredTo` lists the fibers resumed via `transfer`, in order;
`result` is the Ruby-level outcome (the returned count, or a raised error);
`final` is the backend state when the call ends. -/
structure SelectRun where
  waitCall : Option (Nat × Int)
  transferredTo : List RValue
  result : Except RubyError Int
  final : Event_Backend_EPoll

/-- `Event_Backend_EPoll_select` (epoll.c lines 167-185): compute the timeout
(`make_timeout(duration)` is evaluated before `epoll_wait` is entered; if it
raises, no wait happens), call `epoll_wait(data->descriptor, events,
EPOLL_MAX_EVENTS, timeout)`, raise `rb_sys_fail("epoll_wait")` on -1, else
call `transfer` on `events[i].data.ptr` for `i = 0 .. count-1` in order and
return `INT2NUM(count)`. -/
def Event_Backend_EPoll_select (data : Event_Backend_EPoll) (duration : RValue)
    (os : SelectOS) : SelectRun :=
  match make_timeout duration with
  | Except.error e =>
      { waitCall := none, transferredTo := [], result := Except.error e, final := data }
  | Except.ok timeout =>
      match os.epollWait EPOLL_MAX_EVENTS timeout with
      | WaitResult.fail =>
          { waitCall := some (EPOLL_MAX_EVENTS, timeout), transferredTo := [],
            result := Except.error (RubyError.sysFail "epoll_wait"), final := data }
      | WaitResult.ready events =>
          { waitCall := some (EPOLL_MAX_EVENTS, timeout),
            transferredTo := events.map EpollEventStruct.ptr,
            result := Except.ok (events.length : Int), final := data }

/-- Spec-side translation of an interest mask (spec section 4.2 and section 3
"Interest Mask"): the native flags are exactly the images of the bits
Readable=1, Priority=2, Writable=4, with peer-closed (`EPOLLRDHUP`) and
one-shot (`EPOLLONESHOT`) unconditionally OR'd in; all other bits of the mask
are ignored. -/
def specEventFlags (m : Nat) : Nat :=
  (cond (m.testBit 0) EPOLLIN 0) ||| (cond (m.testBit 1) EPOLLPRI 0) |||
    (cond (m.testBit 2) EPOLLOUT 0) ||| EPOLLRDHUP ||| EPOLLONESHOT

/-- `wrap32` is the identity on values already in 32-bit `int` range. -/
theorem wrap32_eq_self (x : Int) (h1 : -(2 ^ 31) ≤ x) (h2 : x < 2 ^ 31) :
    wrap32 x = x := by
  unfold wrap32
  omega

/-- `wrap32` always lands in 32-bit `int` range. -/
theorem wrap32_mem_range (x : Int) : -(2 ^ 31) ≤ wrap32 x ∧ wrap32 x < 2 ^ 31 := by
  unfold wrap32
  omega

/-- Truncation toward zero is the identity on integers. -/
theorem truncToward0_intCast (m : Int) : truncToward0 (m : ℚ) = m := by
  unfold truncToward0
  split <;> simp

/-- Truncation toward zero agrees with `Int.floor` on non-negative rationals. -/
theorem truncToward0_of_nonneg (q : ℚ) (h : 0 ≤ q) : truncToward0 q = ⌊q⌋ := by
  unfold truncToward0
  simp [h]

/-- Claim C1, counterexample: with the OS denying the queue
(`epoll_create` returning -1), the backend initializer does not fail
with any error; it returns the constructed backend (with the sentinel
descriptor -1), contradicting the claim that the call fails with
`ResourceExhaustion` rather than returning a constructed backend. -/
theorem queue_denied_still_constructs_cex :
    Event_Backend_EPoll_initialize { loop := RValue.nil, descriptor := -1 }
        (RValue.obj 0) (-1)
      = Except.ok { loop := RValue.obj 0, descriptor := -1 } := rfl

/-- Claim C1, amended: if the OS denies opening the native epoll queue
(`epoll_create` returns -1), the call does not fail; it returns a constructed
backend whose descriptor field holds the sentinel value -1 (the raw
`epoll_create` result is stored without any error check). -/
theorem queue_denied_returns_backend (s : Event_Backend_EPoll) (loop : RValue) :
    Event_Backend_EPoll_initialize s loop (-1)
      = Except.ok { loop := loop, descriptor := -1 } := rfl

/-- Claim C3: the timeout codec maps nil to the reserved value -1 (block
indefinitely), a whole-unit integer N to N * 1000 milliseconds, and a
fractional input N.5 to N * 1000 + 500 milliseconds, whenever the resulting
millisecond count fits the 32-bit `int` return type. -/
theorem make_timeout_codec :
    make_timeout RValue.nil = Except.ok (-1) ∧
    (∀ n : Int, -(2 ^ 31) ≤ n * 1000 → n * 1000 < 2 ^ 31 →
      make_timeout (RValue.int n) = Except.ok (n * 1000)) ∧
    (∀ n : Int, -(2 ^ 31) ≤ n * 1000 + 500 → n * 1000 + 500 < 2 ^ 31 →
      make_timeout (RValue.float ((n : ℚ) + 1 / 2)) = Except.ok (n * 1000 + 500)) := by
  refine ⟨rfl, ?_, ?_⟩
  · intro n h1 h2
    show Except.ok (wrap32 (n * 1000)) = Except.ok (n * 1000)
    rw [wrap32_eq_self _ h1 h2]
  · intro n h1 h2
    show Except.ok (wrap32 (truncToward0 (((n : ℚ) + 1 / 2) * 1000))) = _
    have hq : ((n : ℚ) + 1 / 2) * 1000 = ((n * 1000 + 500 : Int) : ℚ) := by
      push_cast
      ring
    rw [hq, truncToward0_intCast, wrap32_eq_self _ h1 h2]

/-- Claim C3, witness: concrete evaluations of the codec through the theorem,
at nil, at the integer 3, and at the fractional value 2.5. -/
theorem make_timeout_codec_witness :
    make_timeout RValue.nil = Except.ok (-1) ∧
    make_timeout (RValue.int 3) = Except.ok 3000 ∧
    make_timeout (RValue.float ((2 : ℚ) + 1 / 2)) = Except.ok 2500 := by
  refine ⟨make_timeout_codec.1, ?_, ?_⟩
  · have h := make_timeout_codec.2.1 3 (by norm_num) (by norm_num)
    simpa using h
  · have h := make_timeout_codec.2.2 2 (by norm_num) (by norm_num)
    simpa using h

/-- Claim C9: for an integer duration N the codec computes N * 1000 in `long`
arithmetic and truncates to the `int` return type, so whenever N * 1000 is
outside the 32-bit `int` range the returned budget is the modulo-2^32 wrap of
N * 1000 and never N * 1000 itself; and the float path truncates
value * 1000 toward zero (floor on non-negative values) rather than rounding
to nearest. -/
theorem make_timeout_wrap_and_trunc :
    (∀ n : Int, (n * 1000 < -(2 ^ 31) ∨ 2 ^ 31 ≤ n * 1000) →
      make_timeout (RValue.int n) = Except.ok (wrap32 (n * 1000)) ∧
      make_timeout (RValue.int n) ≠ Except.ok (n * 1000)) ∧
    (∀ q : ℚ, 0 ≤ q → truncToward0 (q * 1000) < 2 ^ 31 →
      make_timeout (RValue.float q) = Except.ok ⌊q * 1000⌋ ∧
      truncToward0 (q * 1000) = ⌊q * 1000⌋) := by
  constructor
  · intro n h
    refine ⟨rfl, ?_⟩
    intro hEq
    have hw : wrap32 (n * 1000) = n * 1000 := by
      have := hEq
      simpa [make_timeout] using this
    have hr := wrap32_mem_range (n * 1000)
    omega
  · intro q hq hlt
    have hq1000 : (0 : ℚ) ≤ q * 1000 := by positivity
    have ht : truncToward0 (q * 1000) = ⌊q * 1000⌋ := truncToward0_of_nonneg _ hq1000
    refine ⟨?_, ht⟩
    show Except.ok (wrap32 (truncToward0 (q * 1000))) = _
    have h0 : (0 : Int) ≤ truncToward0 (q * 1000) := by
      rw [ht]
      exact Int.floor_nonneg.mpr hq1000
    rw [wrap32_eq_self _ (by omega) hlt, ht]

/-- Claim C9, witness: at N = 4194304 (2^22) the product N * 1000 =
4194304000 exceeds 2^31 - 1 and the codec returns the wrapped value
-100663296 — a negative budget, i.e. block indefinitely — not N * 1000; and
the float 1/128 (exactly representable in binary64) yields
floor(1000/128) = 7, where rounding to nearest would give 8. -/
theorem make_timeout_wrap_witness :
    make_timeout (RValue.int 4194304) ≠ Except.ok 4194304000 ∧
    make_timeout (RValue.int 4194304) = Except.ok (-100663296) ∧
    make_timeout (RValue.float (1 / 128)) = Except.ok 7 ∧
    round ((1 / 128 : ℚ) * 1000) = 8 := by
  have hfl : ⌊(1 / 128 : ℚ) * 1000⌋ = 7 := by
    rw [show ((1 : ℚ) / 128) * 1000 = 125 / 16 by norm_num, Int.floor_eq_iff]
    constructor <;> norm_num
  have h1 := make_timeout_wrap_and_trunc.1 4194304 (by norm_num)
  have h2 := make_timeout_wrap_and_trunc.2 (1 / 128) (by norm_num)
      (by rw [truncToward0_of_nonneg _ (by norm_num), hfl]; norm_num)
  refine ⟨h1.2, ?_, ?_, ?_⟩
  · rw [h1.1]
    norm_num [wrap32]
  · rw [h2.1, hfl]
  · rw [round_eq, show ((1 : ℚ) / 128) * 1000 + 1 / 2 = 133 / 16 by norm_num,
      Int.floor_eq_iff]
    constructor <;> norm_num

/-- Claim C7: a duration that is neither nil, nor an integer, nor a float
makes the timeout codec raise the InvalidTimeout error ("unable to convert
timeout"), and this failure is fatal to the enclosing select call: the wait
primitive is never invoked and no waiter is resumed. -/
theorem select_invalid_timeout_fatal (s : Event_Backend_EPoll) (os : SelectOS)
    (duration : RValue) (hnil : duration ≠ RValue.nil)
    (hint : ∀ n, duration ≠ RValue.int n)
    (hfloat : ∀ q, duration ≠ RValue.float q) :
    make_timeout duration
        = Except.error (RubyError.runtimeError "unable to convert timeout") ∧
    (Event_Backend_EPoll_select s duration os).result
        = Except.error (RubyError.runtimeError "unable to convert timeout") ∧
    (Event_Backend_EPoll_select s duration os).waitCall = none ∧
    (Event_Backend_EPoll_select s duration os).transferredTo = [] := by
  cases duration with
  | nil => exact absurd rfl hnil
  | int n => exact absurd rfl (hint n)
  | float q => exact absurd rfl (hfloat q)
  | obj k => exact ⟨rfl, rfl, rfl, rfl⟩

/-- Claim C7, witness: a concrete object-valued duration aborts a concrete
select call before the wait, resuming nobody. -/
theorem select_invalid_timeout_witness :
    (Event_Backend_EPoll_select { loop := RValue.nil, descriptor := 3 }
        (RValue.obj 0) { epollWait := fun _ _ => WaitResult.ready [] }).result
      = Except.error (RubyError.runtimeError "unable to convert timeout") ∧
    (Event_Backend_EPoll_select { loop := RValue.nil, descriptor := 3 }
        (RValue.obj 0) { epollWait := fun _ _ => WaitResult.ready [] }).waitCall
      = none := by
  have h := select_invalid_timeout_fatal { loop := RValue.nil, descriptor := 3 }
      { epollWait := fun _ _ => WaitResult.ready [] } (RValue.obj 0)
      (by simp) (by simp) (by simp)
  exact ⟨h.2.1, h.2.2.1⟩

/-- Claim C10: neither io_wait nor select modifies the backend state: both
leave the loop reference and the queue descriptor exactly as they were on
entry; the fields are written only by allocate (loop = nil, descriptor = -1)
and by the initializer (stores the given loop and the raw epoll_create
result). -/
theorem backend_state_frame :
    (∀ (s : Event_Backend_EPoll) (fiber : RValue) (fd mask : Int) (os : IOWaitOS),
      (Event_Backend_EPoll_io_wait s fiber fd mask os).final = s) ∧
    (∀ (s : Event_Backend_EPoll) (duration : RValue) (os : SelectOS),
      (Event_Backend_EPoll_select s duration os).final = s) ∧
    (∀ (s : Event_Backend_EPoll) (loop : RValue) (r : Int),
      Event_Backend_EPoll_initialize s loop r
        = Except.ok { loop := loop, descriptor := r }) ∧
    Event_Backend_EPoll_allocate = { loop := RValue.nil, descriptor := -1 } := by
  refine ⟨?_, ?_, fun s loop r => rfl, rfl⟩
  · intro s fiber fd mask os
    rcases os with ⟨a1, dr, a2⟩
    cases a1 <;> cases a2 <;> by_cases hdr : dr = -1 <;>
      simp [Event_Backend_EPoll_io_wait, hdr]
  · intro s duration os
    cases hmt : make_timeout duration with
    | error e => simp [Event_Backend_EPoll_select, hmt]
    | ok t =>
      cases hw : os.epollWait EPOLL_MAX_EVENTS t with
      | fail => simp [Event_Backend_EPoll_select, hmt, hw]
      | ready events => simp [Event_Backend_EPoll_select, hmt, hw]

/-- Claim C8: the backend handle is always a valid (non-negative) descriptor
or the sentinel -1 — allocate sets the sentinel, and the initializer
preserves the dichotomy given that epoll_create returns a valid descriptor or
-1; teardown closes the handle exactly when it is valid, never fails, and
resumes no waiter (pending kernel registrations are simply dropped). -/
theorem backend_handle_invariant_and_teardown :
    Event_Backend_EPoll_allocate.descriptor = -1 ∧
    (∀ (s s2 : Event_Backend_EPoll) (loop : RValue) (r : Int),
      (0 ≤ r ∨ r = -1) →
      Event_Backend_EPoll_initialize s loop r = Except.ok s2 →
      0 ≤ s2.descriptor ∨ s2.descriptor = -1) ∧
    (∀ d : Event_Backend_EPoll,
      (0 ≤ d.descriptor → (Event_Backend_EPoll_Type_free d).closed = [d.descriptor]) ∧
      (d.descriptor < 0 → (Event_Backend_EPoll_Type_free d).closed = []) ∧
      (Event_Backend_EPoll_Type_free d).resumed = []) := by
  refine ⟨rfl, ?_, ?_⟩
  · intro s s2 loop r hr h
    have h2 : ({ loop := loop, descriptor := r } : Event_Backend_EPoll) = s2 := by
      simpa [ Event_Backend_EPoll_initialize] using h
    rw [← h2]
    exact hr
  · intro d
    by_cases h : d.descriptor ≥ 0 <;>
      simp [Event_Backend_EPoll_Type_free, h]

/-- Claim C8, witness: a backend with the valid handle 3 closes exactly 3 on
teardown and resumes nobody; one holding the sentinel -1 closes nothing; and
a backend initialized from a valid epoll_create result 3 satisfies the
handle dichotomy. -/
theorem backend_handle_invariant_witness :
    (Event_Backend_EPoll_Type_free { loop := RValue.nil, descriptor := 3 }).closed
        = [3] ∧
    (Event_Backend_EPoll_Type_free { loop := RValue.nil, descriptor := 3 }).resumed
        = [] ∧
    (Event_Backend_EPoll_Type_free { loop := RValue.nil, descriptor := -1 }).closed
        = [] ∧
    (0 ≤ ({ loop := RValue.obj 0, descriptor := 3 } : Event_Backend_EPoll).descriptor
      ∨ ({ loop := RValue.obj 0, descriptor := 3 } : Event_Backend_EPoll).descriptor
          = -1) := by
  refine ⟨?_, ?_, ?_, ?_⟩
  · exact (backend_handle_invariant_and_teardown.2.2
      { loop := RValue.nil, descriptor := 3 }).1 (by norm_num)
  · exact (backend_handle_invariant_and_teardown.2.2
      { loop := RValue.nil, descriptor := 3 }).2.2
  · exact (backend_handle_invariant_and_teardown.2.2
      { loop := RValue.nil, descriptor := -1 }).2.1 (by norm_num)
  · exact backend_handle_invariant_and_teardown.2.1
      { loop := RValue.nil, descriptor := -1 } { loop := RValue.obj 0, descriptor := 3 }
      (RValue.obj 0) 3 (Or.inl (by norm_num)) rfl

/-- Claim C2, counterexample: in the run where the first add reports EEXIST,
dup succeeds returning descriptor 7, and the retried add fails, the call
aborts with the epoll_ctl error and the close list is empty — the duplicate 7
(whose creation is witnessed by the rb_update_max_fd record and the second
registration attempt on fd 7) is not closed on this exit path, so it does
outlive the io_wait call. -/
theorem io_wait_dup_leak_cex :
    (Event_Backend_EPoll_io_wait { loop := RValue.obj 0, descriptor := 3 }
        (RValue.obj 1) 5 1
        { add1 := CtlResult.eexist, dupResult := 7, add2 := CtlResult.fail }).closed
      = [] ∧
    (Event_Backend_EPoll_io_wait { loop := RValue.obj 0, descriptor := 3 }
        (RValue.obj 1) 5 1
        { add1 := CtlResult.eexist, dupResult := 7, add2 := CtlResult.fail }).updatedMaxFd
      = some 7 ∧
    (Event_Backend_EPoll_io_wait { loop := RValue.obj 0, descriptor := 3 }
        (RValue.obj 1) 5 1
        { add1 := CtlResult.eexist, dupResult := 7, add2 := CtlResult.fail }).ctlAdds.map
        Prod.fst
      = [5, 7] ∧
    (Event_Backend_EPoll_io_wait { loop := RValue.obj 0, descriptor := 3 }
        (RValue.obj 1) 5 1
        { add1 := CtlResult.eexist, dupResult := 7, add2 := CtlResult.fail }).result
      = Except.error (RubyError.sysFail "epoll_ctl") := by
  refine ⟨?_, ?_, ?_, ?_⟩ <;> rfl

/-- Claim C2, amended: on the duplicate-descriptor recovery path with a
successful dup, the duplicate is closed exactly on the normal-return exit
(retried add succeeded, waiter resumed); on the exit where the retried add
fails, the call aborts with an error and the duplicate is not closed, so it
outlives the io_wait call that created it. -/
theorem io_wait_dup_closed_on_success_only (s : Event_Backend_EPoll)
    (fiber : RValue) (fd mask : Int) (os : IOWaitOS)
    (h1 : os.add1 = CtlResult.eexist) (h2 : os.dupResult ≠ -1) :
    (os.add2 = CtlResult.ok →
      (Event_Backend_EPoll_io_wait s fiber fd mask os).closed = [os.dupResult] ∧
      (Event_Backend_EPoll_io_wait s fiber fd mask os).result = Except.ok RValue.nil) ∧
    (os.add2 ≠ CtlResult.ok →
      (Event_Backend_EPoll_io_wait s fiber fd mask os).closed = [] ∧
      (Event_Backend_EPoll_io_wait s fiber fd mask os).result
        = Except.error (RubyError.sysFail "epoll_ctl")) := by
  rcases os with ⟨a1, dr, a2⟩
  simp only at h1 h2
  subst h1
  constructor
  · intro ha2
    simp only at ha2
    subst ha2
    simp [Event_Backend_EPoll_io_wait, h2]
  · intro ha2
    cases a2 with
    | ok => exact absurd rfl ha2
    | eexist => simp [Event_Backend_EPoll_io_wait, h2]
    | fail => simp [Event_Backend_EPoll_io_wait, h2]

/-- Claim C2, witness for the amended claim: with dup returning 7, the
successful retry closes exactly 7, and the failing retry closes nothing. -/
theorem io_wait_dup_closed_witness :
    (Event_Backend_EPoll_io_wait { loop := RValue.obj 0, descriptor := 3 }
        (RValue.obj 1) 5 1
        { add1 := CtlResult.eexist, dupResult := 7, add2 := CtlResult.ok }).closed
      = [7] ∧
    (Event_Backend_EPoll_io_wait { loop := RValue.obj 0, descriptor := 3 }
        (RValue.obj 1) 5 1
        { add1 := CtlResult.eexist, dupResult := 7, add2 := CtlResult.fail }).closed
      = [] := by
  constructor
  · exact ((io_wait_dup_closed_on_success_only _ _ _ _ _ rfl (by norm_num)).1 rfl).1
  · exact ((io_wait_dup_closed_on_success_only _ _ _ _ _ rfl (by norm_num)).2
      (by simp)).1

/-- Claim C5: when the first registration add fails with EEXIST, io_wait
always invokes dup on the original descriptor and, when the dup succeeds,
retries the add using the duplicate's numeric id; when the retried add
succeeds, the call completes normally (the conflict is absorbed: the waiter
is suspended via transfer and no error reaches the caller). -/
theorem io_wait_conflict_recovery (s : Event_Backend_EPoll) (fiber : RValue)
    (fd mask : Int) (os : IOWaitOS) (h1 : os.add1 = CtlResult.eexist) :
    (Event_Backend_EPoll_io_wait s fiber fd mask os).dupCalledOn = some fd ∧
    (os.dupResult ≠ -1 →
      (Event_Backend_EPoll_io_wait s fiber fd mask os).ctlAdds
        = [(fd, { events := ioWaitFlags mask, ptr := fiber }),
           (os.dupResult, { events := ioWaitFlags mask, ptr := fiber })] ∧
      (os.add2 = CtlResult.ok →
        (Event_Backend_EPoll_io_wait s fiber fd mask os).result = Except.ok RValue.nil ∧
        (Event_Backend_EPoll_io_wait s fiber fd mask os).transferredTo = [s.loop])) := by
  rcases os with ⟨a1, dr, a2⟩
  simp only at h1
  subst h1
  constructor
  · by_cases hdr : dr = -1 <;> cases a2 <;>
      simp [Event_Backend_EPoll_io_wait, hdr]
  · intro hdr
    simp only at hdr
    refine ⟨?_, ?_⟩
    · cases a2 <;> simp [Event_Backend_EPoll_io_wait, hdr]
    · intro ha2
      simp only at ha2
      subst ha2
      simp [Event_Backend_EPoll_io_wait, hdr]

/-- Claim C5, witness: a concrete conflicted registration (fd 5, dup gives 7,
retry succeeds) runs to normal completion with both adds recorded. -/
theorem io_wait_conflict_recovery_witness :
    (Event_Backend_EPoll_io_wait { loop := RValue.obj 0, descriptor := 3 }
        (RValue.obj 1) 5 1
        { add1 := CtlResult.eexist, dupResult := 7, add2 := CtlResult.ok }).dupCalledOn
      = some 5 ∧
    (Event_Backend_EPoll_io_wait { loop := RValue.obj 0, descriptor := 3 }
        (RValue.obj 1) 5 1
        { add1 := CtlResult.eexist, dupResult := 7, add2 := CtlResult.ok }).result
      = Except.ok RValue.nil := by
  have h := io_wait_conflict_recovery { loop := RValue.obj 0, descriptor := 3 }
      (RValue.obj 1) 5 1
      { add1 := CtlResult.eexist, dupResult := 7, add2 := CtlResult.ok } rfl
  exact ⟨h.1, ((h.2 (by norm_num)).2 rfl).1⟩

/-- Bitwise and of two integer casts of naturals is the cast of the natural
bitwise and (both sides match on the `ofNat` constructors). -/
theorem intLand_natCast (a b : Nat) :
    Int.land (a : Int) (b : Int) = ((a &&& b : Nat) : Int) := rfl

/-- The mask test `mask & (2^i) != 0` performed by io_wait agrees with
`testBit i` on the non-negative mask. -/
theorem natCast_land_two_pow_ne_zero (n i : Nat) :
    (Int.land (n : Int) ((2 ^ i : Nat) : Int) ≠ 0) ↔ n.testBit i = true := by
  rw [intLand_natCast]
  rw [Nat.and_two_pow]
  cases h : n.testBit i <;> simp [h]

/-- The flag word io_wait builds from a non-negative mask is exactly the
spec-side translation of the mask's low three bits. -/
theorem ioWaitFlags_eq_specEventFlags (mask : Int) (h : 0 ≤ mask) :
    ioWaitFlags mask = specEventFlags mask.toNat := by
  lift mask to ℕ using h with n
  rw [Int.toNat_natCast]
  have h0 := natCast_land_two_pow_ne_zero n 0
  have h1 := natCast_land_two_pow_ne_zero n 1
  have h2 := natCast_land_two_pow_ne_zero n 2
  norm_num at h0 h1 h2
  unfold ioWaitFlags specEventFlags READABLE PRIORITY WRITABLE
  cases hb0 : n.testBit 0 <;> cases hb1 : n.testBit 1 <;> cases hb2 : n.testBit 2 <;>
    simp only [hb0, hb1, hb2] at h0 h1 h2 <;>
    simp [h0, h1, h2, Nat.mod_two_eq_one_iff_testBit_zero, hb0, hb1, hb2,
      EPOLLIN, EPOLLPRI, EPOLLOUT, EPOLLRDHUP, EPOLLONESHOT]

/-- The spec-side translation depends only on the low three bits of the mask:
every other bit is ignored. -/
theorem specEventFlags_only_low_bits (m : Nat) :
    specEventFlags m = specEventFlags (m % 8) := by
  unfold specEventFlags
  have h8 : (8 : Nat) = 2 ^ 3 := by norm_num
  rw [h8]
  rw [Nat.testBit_mod_two_pow, Nat.testBit_mod_two_pow, Nat.testBit_mod_two_pow]
  norm_num

/-- Claim C6: for every io_wait call with a non-negative interest mask, the
`events` word of every native registration attempted is exactly the spec
translation of the mask's Readable=1, Priority=2, Writable=4 bits, with
peer-closed and one-shot OR'd in unconditionally; the translation ignores all
other bits of the mask, and the empty mask registers exactly
peer-closed plus one-shot. -/
theorem io_wait_registered_flags (s : Event_Backend_EPoll) (fiber : RValue)
    (fd : Int) (os : IOWaitOS) (mask : Int) (hmask : 0 ≤ mask) :
    (∀ p ∈ (Event_Backend_EPoll_io_wait s fiber fd mask os).ctlAdds,
      p.2 = { events := specEventFlags mask.toNat, ptr := fiber }) ∧
    (∀ m : Nat, specEventFlags m = specEventFlags (m % 8)) ∧
    ioWaitFlags 0 = EPOLLRDHUP ||| EPOLLONESHOT := by
  refine ⟨?_, specEventFlags_only_low_bits, by decide⟩
  intro p hp
  have he := ioWaitFlags_eq_specEventFlags mask hmask
  rcases os with ⟨a1, dr, a2⟩
  cases a1 <;> cases a2 <;> by_cases hdr : dr = -1 <;>
    simp [Event_Backend_EPoll_io_wait, hdr] at hp <;>
    first
    | (rcases hp with hp | hp <;> simp [hp, ← he])
    | simp [hp, ← he]

/-- Claim C6, witness: with mask 5 (Readable + Writable) the single
registration of a successful io_wait carries exactly
EPOLLIN + EPOLLOUT + EPOLLRDHUP + EPOLLONESHOT, via the theorem. -/
theorem io_wait_registered_flags_witness :
    ((Event_Backend_EPoll_io_wait { loop := RValue.obj 0, descriptor := 3 }
        (RValue.obj 1) 4 5
        { add1 := CtlResult.ok, dupResult := -1, add2 := CtlResult.ok }).ctlAdds.map
        Prod.snd)
      = [{ events := specEventFlags (5 : Int).toNat, ptr := RValue.obj 1 }] := by
  have h := (io_wait_registered_flags { loop := RValue.obj 0, descriptor := 3 }
    (RValue.obj 1) 4
    { add1 := CtlResult.ok, dupResult := -1, add2 := CtlResult.ok }
    5 (by norm_num)).1
  have hm := h (4, { events := ioWaitFlags 5, ptr := RValue.obj 1 })
    (by simp [Event_Backend_EPoll_io_wait])
  simpa [Event_Backend_EPoll_io_wait] using hm

/-- Claim C4: whenever select returns normally with count k, there is a
delivered batch from the wait primitive, which was invoked with the fixed
capacity EPOLL_MAX_EVENTS = 1024, such that k is the batch length (hence
k ≤ 1024 under the kernel contract that at most the requested capacity is
returned), the resumed waiters are exactly the payloads of the delivered
entries in delivery order (one resume per entry), and an empty batch yields
k = 0 with no resume — a normal return, not an error. -/
theorem select_batch_dispatch (s : Event_Backend_EPoll) (duration : RValue)
    (os : SelectOS)
    (hos : ∀ cap t evts, os.epollWait cap t = WaitResult.ready evts →
      evts.length ≤ cap)
    (k : Int)
    (hk : (Event_Backend_EPoll_select s duration os).result = Except.ok k) :
    ∃ t evts, make_timeout duration = Except.ok t ∧
      os.epollWait EPOLL_MAX_EVENTS t = WaitResult.ready evts ∧
      (Event_Backend_EPoll_select s duration os).waitCall
          = some (EPOLL_MAX_EVENTS, t) ∧
      k = (evts.length : Int) ∧ k ≤ 1024 ∧
      (Event_Backend_EPoll_select s duration os).transferredTo
          = evts.map EpollEventStruct.ptr ∧
      (evts = [] → k = 0 ∧
        (Event_Backend_EPoll_select s duration os).transferredTo = []) := by
  cases hmt : make_timeout duration with
  | error e =>
    rw [show Event_Backend_EPoll_select s duration os
        = { waitCall := none, transferredTo := [], result := Except.error e,
            final := s } from by simp [Event_Backend_EPoll_select, hmt]] at hk
    cases hk
  | ok t =>
    cases hw : os.epollWait EPOLL_MAX_EVENTS t with
    | fail =>
      rw [show Event_Backend_EPoll_select s duration os
          = { waitCall := some (EPOLL_MAX_EVENTS, t), transferredTo := [],
              result := Except.error (RubyError.sysFail "epoll_wait"),
              final := s } from by simp [Event_Backend_EPoll_select, hmt, hw]] at hk
      cases hk
    | ready evts =>
      have hsel : Event_Backend_EPoll_select s duration os
          = { waitCall := some (EPOLL_MAX_EVENTS, t),
              transferredTo := evts.map EpollEventStruct.ptr,
              result := Except.ok (evts.length : Int), final := s } := by
        simp [Event_Backend_EPoll_select, hmt, hw]
      rw [hsel] at hk
      have hkk : k = (evts.length : Int) := by
        cases hk
        rfl
      have hlen : evts.length ≤ EPOLL_MAX_EVENTS := hos _ _ _ hw
      refine ⟨t, evts, rfl, hw, by rw [hsel], hkk, ?_, by rw [hsel], ?_⟩
      · rw [hkk]
        have h1024 : EPOLL_MAX_EVENTS = 1024 := rfl
        rw [h1024] at hlen
        exact_mod_cast hlen
      · intro hempty
        subst hempty
        exact ⟨by simpa using hkk, by rw [hsel]; simp⟩

/-- A concrete kernel oracle for the select witness: delivers min(cap, 2)
ready entries, all pointing at the fiber object 1, so it honours the
at-most-capacity kernel contract. -/
def selectWitnessOS : SelectOS :=
  { epollWait := fun cap _ => WaitResult.ready
      (List.replicate (min cap 2) { events := EPOLLIN, ptr := RValue.obj 1 }) }

/-- Claim C4, witness: with the concrete two-event oracle and a nil duration
the select call returns count 2, obtained by applying the dispatch theorem at
that oracle. -/
theorem select_batch_dispatch_witness :
    ∃ t evts, make_timeout RValue.nil = Except.ok t ∧
      selectWitnessOS.epollWait EPOLL_MAX_EVENTS t = WaitResult.ready evts ∧
      (Event_Backend_EPoll_select { loop := RValue.nil, descriptor := 3 }
          RValue.nil selectWitnessOS).waitCall = some (EPOLL_MAX_EVENTS, t) ∧
      (2 : Int) = (evts.length : Int) ∧ (2 : Int) ≤ 1024 ∧
      (Event_Backend_EPoll_select { loop := RValue.nil, descriptor := 3 }
          RValue.nil selectWitnessOS).transferredTo
          = evts.map EpollEventStruct.ptr ∧
      (evts = [] → (2 : Int) = 0 ∧
        (Event_Backend_EPoll_select { loop := RValue.nil, descriptor := 3 }
            RValue.nil selectWitnessOS).transferredTo = []) :=
  select_batch_dispatch { loop := RValue.nil, descriptor := 3 } RValue.nil
    selectWitnessOS
    (fun cap t evts h => by
      simp only [selectWitnessOS] at h
      cases h
      simp)
    2 rfl
